import Mathlib

/-
Verification of `add_frontmatter.py`: a tool that walks a documentation
tree and prepends Jekyll-style frontmatter headers to markdown files.

The Python source is shallowly embedded below.  Python strings are Lean
`String`s (computations happen on their `List Char` data); Python `int`
is Lean `Int`; a Python function that can raise an uncaught exception is
embedded as `Except PyError`.  The Python string primitives used by the
source (`str.strip`, `str.startswith`, `str.endswith`, `str.splitlines`,
`str.split`, `int(...)`) are embedded first, restricted where noted to
the character sets that CPython documents.
-/

namespace FrontmatterTool

/-- Characters treated as whitespace by Python `str.strip()` (the CPython
`Py_UNICODE_ISSPACE` set). -/
def pyIsSpace (c : Char) : Bool :=
  c = ' ' ∨ c = '\t' ∨ c = '\n' ∨ c = '\x0b' ∨ c = '\x0c' ∨ c = '\r' ∨
  c = '\x1c' ∨ c = '\x1d' ∨ c = '\x1e' ∨ c = '\x1f' ∨ c = '\x85' ∨
  c = '\xa0' ∨ c = '\u1680' ∨ c = '\u2000' ∨ c = '\u2001' ∨ c = '\u2002' ∨
  c = '\u2003' ∨ c = '\u2004' ∨ c = '\u2005' ∨ c = '\u2006' ∨ c = '\u2007' ∨
  c = '\u2008' ∨ c = '\u2009' ∨ c = '\u200a' ∨ c = '\u2028' ∨ c = '\u2029' ∨
  c = '\u202f' ∨ c = '\u205f' ∨ c = '\u3000'

/-- Line boundary characters of Python `str.splitlines()` (besides the
two-character boundary `"\r\n"`, handled separately). -/
def isLineBoundary (c : Char) : Bool :=
  c = '\n' ∨ c = '\r' ∨ c = '\x0b' ∨ c = '\x0c' ∨ c = '\x1c' ∨ c = '\x1d' ∨
  c = '\x1e' ∨ c = '\x85' ∨ c = '\u2028' ∨ c = '\u2029'

/-- Remove trailing Python whitespace from a character list. -/
def dropTrailingSpace (l : List Char) : List Char :=
  (l.reverse.dropWhile pyIsSpace).reverse

/-- Python `str.strip()` on character lists: remove leading and trailing
whitespace. -/
def pyStripList (l : List Char) : List Char :=
  dropTrailingSpace (l.dropWhile pyIsSpace)

/-- Python `str.strip()`. -/
def pyStrip (s : String) : String :=
  ⟨pyStripList s.data⟩

/-- Python `str.startswith(pre)` for a plain string argument. -/
def pyStartswith (s pre : String) : Bool :=
  pre.data.isPrefixOf s.data

/-- Python `str.endswith(suf)` for a plain string argument. -/
def pyEndswith (s suf : String) : Bool :=
  suf.data.isSuffixOf s.data

/-- Worker for Python `str.splitlines()`: `acc` holds the current line,
reversed.  A line ends at any boundary character, with `"\r\n"` counting
as a single boundary; a boundary at the very end of the input does not
open a new empty line. -/
def pySplitlinesGo : List Char → List Char → List (List Char)
  | [], acc => [acc.reverse]
  | '\r' :: '\n' :: rest, acc =>
    acc.reverse :: (match rest with | [] => [] | _ :: _ => pySplitlinesGo rest [])
  | c :: rest, acc =>
    if isLineBoundary c then
      acc.reverse :: (match rest with | [] => [] | _ :: _ => pySplitlinesGo rest [])
    else
      pySplitlinesGo rest (c :: acc)

/-- Continuation after a line boundary: at the end of the input no new
line is opened. -/
def pySplitlinesCont (l : List Char) : List (List Char) :=
  match l with
  | [] => []
  | _ :: _ => pySplitlinesGo l []

/-- Python `str.splitlines()`. -/
def pySplitlines (s : String) : List String :=
  match s.data with
  | [] => []
  | l => (pySplitlinesGo l []).map fun cs => ⟨cs⟩

/-- Worker for Python `str.split(sep)` with a one-character separator:
keeps empty segments, always returns at least one segment. -/
def pySplitCharGo (sep : Char) : List Char → List Char → List (List Char)
  | [], acc => [acc.reverse]
  | c :: rest, acc =>
    if c = sep then acc.reverse :: pySplitCharGo sep rest []
    else pySplitCharGo sep rest (c :: acc)

/-- Python `str.split(sep)` for a one-character separator string. -/
def pySplitChar (s : String) (sep : Char) : List String :=
  (pySplitCharGo sep s.data []).map fun cs => ⟨cs⟩

/-- Digit run of a Python integer literal: nonempty ASCII digits, with
single underscores allowed strictly between digits. -/
def pyDigitRun : List Char → Bool
  | [] => false
  | [c] => c.isDigit
  | '_' :: _ => false
  | c :: '_' :: rest => c.isDigit && pyDigitRun rest
  | c :: rest => c.isDigit && pyDigitRun rest

/-- Numeric value of a digit run, underscores skipped. -/
def pyDigitsVal (l : List Char) : Nat :=
  (l.filter fun c => c ≠ '_').foldl (fun n c => 10 * n + (c.toNat - '0'.toNat)) 0

/-- Start code points of the Unicode `Numeric_Type=Decimal` (Nd) ranges:
each is a run of ten code points with digit values 0 to 9 (Unicode 14.0,
the table compiled into CPython 3.11's `unicodedata`). -/
def pyDecimalBases : List Nat :=
  [0x30, 0x660, 0x6f0, 0x7c0, 0x966, 0x9e6, 0xa66, 0xae6, 0xb66, 0xbe6,
   0xc66, 0xce6, 0xd66, 0xde6, 0xe50, 0xed0, 0xf20, 0x1040, 0x1090, 0x17e0,
   0x1810, 0x1946, 0x19d0, 0x1a80, 0x1a90, 0x1b50, 0x1bb0, 0x1c40, 0x1c50,
   0xa620, 0xa8d0, 0xa900, 0xa9d0, 0xa9f0, 0xaa50, 0xabf0, 0xff10, 0x104a0,
   0x10d30, 0x11066, 0x110f0, 0x11136, 0x111d0, 0x112f0, 0x11450, 0x114d0,
   0x11650, 0x116c0, 0x11730, 0x118e0, 0x11950, 0x11c50, 0x11d50, 0x11da0,
   0x16a60, 0x16ac0, 0x16b50, 0x1d7ce, 0x1d7d8, 0x1d7e2, 0x1d7ec, 0x1d7f6,
   0x1e140, 0x1e2f0, 0x1e950, 0x1fbf0]

/-- Digit value of a Unicode decimal digit character, `none` otherwise. -/
def pyDecimalVal (c : Char) : Option Nat :=
  (pyDecimalBases.find? fun b => b ≤ c.toNat ∧ c.toNat ≤ b + 9).map
    fun b => c.toNat - b

/-- The per-character normalization CPython applies before integer
parsing (`_PyUnicode_TransformDecimalAndSpaceToASCII`): whitespace
becomes an ASCII space, a Unicode decimal digit becomes the ASCII digit
of the same value, everything else is left alone (and later fails the
ASCII digit parse). -/
def pyIntTransform (c : Char) : Char :=
  if pyIsSpace c then ' '
  else
    match pyDecimalVal c with
    | some v => Char.ofNat (0x30 + v)
    | none => c

/-- Python `int(s)` on a string, returning `none` where CPython raises
`ValueError`: decimal digits and whitespace are first normalized to
ASCII, then surrounding whitespace is stripped and an optional sign is
followed by a digit run. -/
def pyInt (s : String) : Option Int :=
  match pyStripList (s.data.map pyIntTransform) with
  | '+' :: ds => if pyDigitRun ds then some (pyDigitsVal ds) else none
  | '-' :: ds => if pyDigitRun ds then some (-(pyDigitsVal ds : Int)) else none
  | ds => if pyDigitRun ds then some (pyDigitsVal ds) else none

/-- POSIX `os.path.basename`: the part after the final slash. -/
def pyBasename (p : String) : String :=
  (pySplitChar p '/').getLastD ""

/-- Uncaught Python exceptions that `add_frontmatter` can raise: `title`
unbound after the scan loop (`NameError`), `line.split(":")[1]` on a line
without a colon (`IndexError`), `int(...)` on a non-integer token
(`ValueError`). -/
inductive PyError where
  | nameError
  | indexError
  | valueError
deriving DecidableEq, Repr

/-- First line of the content that starts with `"# Chapter"` (the scan
loop of lines 37-41 of the source). -/
def findMarker (content : String) : Option String :=
  (pySplitlines content).find? fun l => pyStartswith l "# Chapter"

/-- Lines 39-40 of the source applied to a marker line:
`title = line.split(":")[1].strip()` and
`nav_order = int(line.split(":")[0].split(" ")[-1])`. -/
def parseMarkerLine (line : String) : Except PyError (String × Int) :=
  match pySplitChar line ':' with
  | [] => .error .indexError
  | [_] => .error .indexError
  | p0 :: p1 :: _ =>
    let title := pyStrip p1
    match pyInt ((pySplitChar p0 ' ').getLastD "") with
    | some n => .ok (title, n)
    | none => .error .valueError

/-- Chapter metadata extraction (lines 33-41): scan the lines for the
first `"# Chapter"` marker; no marker leaves `title` unbound, which
raises `NameError` at the f-string of line 46. -/
def parseChapter (content : String) : Except PyError (String × Int) :=
  match findMarker content with
  | none => .error .nameError
  | some line => parseMarkerLine line

/-- The index-role frontmatter f-string of lines 24-31.  The triple-quoted
literal opens with a newline, so the block starts with one. -/
def indexFrontmatter (docName : String) (navOrder : Int) : String :=
  "\n---\nlayout: default\ntitle: \"" ++ docName ++ "\"\nnav_order: " ++
    toString navOrder ++ "\nhas_children: true\n---\n"

/-- The chapter-role frontmatter f-string of lines 43-50.  The
triple-quoted literal opens with a newline, so the block starts with one. -/
def chapterFrontmatter (title docName : String) (navOrder : Int) : String :=
  "\n---\nlayout: default\ntitle: \"" ++ title ++ "\"\nparent: \"" ++ docName ++
    "\"\nnav_order: " ++ toString navOrder ++ "\n---\n"

/-- The check of line 54: `content.strip().startswith("---")`. -/
def hasFrontmatter (content : String) : Bool :=
  pyStartswith (pyStrip content) "---"

/-- `add_frontmatter(file_path, doc_name, nav_order)` (lines 17-59) on a
file whose current content is `content`.  Returns the content after the
call together with whether a write happened; `.error` is an uncaught
exception (raised before the write of line 58, so the file is unchanged).
The frontmatter is constructed first (raising for a chapter file whose
marker is absent or malformed), and only then is the existing-frontmatter
check of line 54 performed. -/
def add_frontmatter (filePath docName : String) (navOrder : Int)
    (content : String) : Except PyError (String × Bool) :=
  let fmE : Except PyError String :=
    if pyBasename filePath = "index.md" then
      .ok (indexFrontmatter docName navOrder)
    else
      (parseChapter content).map fun tm => chapterFrontmatter tm.1 docName tm.2
  match fmE with
  | .error e => .error e
  | .ok fm =>
    if hasFrontmatter content then
      .ok (content, false)
    else
      .ok (fm ++ "\n" ++ content, true)

/-- File content after one invocation of `add_frontmatter` on it: an
uncaught exception leaves the file as it was. -/
def runOnce (filePath docName : String) (navOrder : Int) (content : String) :
    String :=
  match add_frontmatter filePath docName navOrder content with
  | .ok r => r.1
  | .error _ => content

/-- A directory of the scanned tree: plain file names plus named
subdirectories. -/
inductive FsDir where
  | node (files : List String) (subdirs : List (String × FsDir))

/-- POSIX `os.path.join(root, name)`: an absolute `name` wins; otherwise
a separator is inserted unless the root is empty or already ends with
one. -/
def pyJoin (root name : String) : String :=
  if pyStartswith name "/" then name
  else if root = "" ∨ pyEndswith root "/" then root ++ name
  else root ++ "/" ++ name

mutual

/-- Top-down `os.walk`: each visited directory contributes its path and
its plain file names. -/
def walkFiles : String → FsDir → List (String × List String)
  | root, .node files subdirs => (root, files) :: walkSubdirs root subdirs

/-- Walk of the subdirectories of a directory at path `root`, in order. -/
def walkSubdirs : String → List (String × FsDir) → List (String × List String)
  | _, [] => []
  | root, (name, d) :: rest =>
    walkFiles (pyJoin root name) d ++ walkSubdirs root rest

end

/-- `get_files(doc_path)` (lines 4-15): walk the tree and keep the paths
of files whose name ends with `".md"`.  The scanned tree is `none` when
the root path is missing or unreadable; `os.walk` is called with the
default `onerror=None`, which ignores the `scandir` error on the root, so
the walk yields nothing and the result is the empty list. -/
def get_files (docPath : String) (fs : Option FsDir) : List String :=
  match fs with
  | none => []
  | some d =>
    (walkFiles docPath d).flatMap fun rf =>
      (rf.2.filter fun file => pyEndswith file ".md").map fun file =>
        pyJoin rf.1 file

/-- The loop of lines 73-74: call `add_frontmatter` on each located file
in order; `contents` gives each path's current content.  An uncaught
exception aborts the remaining batch.  Returns each processed path with
whether it was written. -/
def processAll (docName : String) (navOrder : Int) (contents : String → String) :
    List String → Except PyError (List (String × Bool))
  | [] => .ok []
  | p :: rest => do
    let r ← add_frontmatter p docName navOrder (contents p)
    let others ← processAll docName navOrder contents rest
    .ok ((p, r.2) :: others)

/-- `main()` (lines 61-74) after argument parsing: locate the files under
the root and process each one. -/
def mainRun (docName : String) (navOrder : Int) (docPath : String)
    (fs : Option FsDir) (contents : String → String) :
    Except PyError (List (String × Bool)) :=
  processAll docName navOrder contents (get_files docPath fs)

/-- Paths that a run over `paths` would write to (a superset of the
writes of an aborted run, which stops at the first exception). -/
def runWrites (docName : String) (navOrder : Int) (contents : String → String)
    (paths : List String) : List String :=
  paths.filterMap fun p =>
    match add_frontmatter p docName navOrder (contents p) with
    | .ok (_, true) => some p
    | _ => none

end FrontmatterTool

namespace FrontmatterTool

example : pySplitlines "a\nb" = ["a", "b"] := by decide
example : pySplitlines "a\n" = ["a"] := by decide
example : pySplitlines "" = [] := by decide
example : pySplitlines "\n" = [""] := by decide
example : pySplitlines "a\r\nb" = ["a", "b"] := by decide
example : pySplitChar "a::b" ':' = ["a", "", "b"] := by decide
example : pySplitChar "" ':' = [""] := by decide
example : pyInt " 42 " = some 42 := by decide
example : pyInt "-7" = some (-7) := by decide
example : pyInt "4_2" = some 42 := by decide
example : pyInt "٣" = some 3 := by decide
example : pyInt "١٢" = some 12 := by decide
example : parseChapter "# Chapter ٣: T\n" = .ok ("T", 3) := rfl
example : pyJoin "docs/" "a.md" = "docs/a.md" := by decide
example : pyJoin "docs" "a.md" = "docs/a.md" := by decide
example : pyInt "_42" = none := by decide
example : pyInt "" = none := by decide
example : pyInt "3x" = none := by decide
example : pyBasename "docs/sub/index.md" = "index.md" := by decide
example : pyStrip "  hi \n" = "hi" := by decide
example : parseChapter "intro\n# Chapter 3: Getting Started\nbody" =
    .ok ("Getting Started", 3) := rfl
example : parseChapter "# Chapter 2: Setup: Part A\n" = .ok ("Setup", 2) := rfl
example : parseChapter "no marker" = .error .nameError := rfl
example : parseChapter "# Chapter X\n" = .error .indexError := rfl
example : parseChapter "# Chapter x: T\n" = .error .valueError := rfl

example :
    add_frontmatter "d/index.md" "Guide" 5 "hello\n" =
      .ok ("\n---\nlayout: default\ntitle: \"Guide\"\nnav_order: 5\nhas_children: true\n---\n\nhello\n",
        true) := rfl

example :
    add_frontmatter "d/ch1.md" "Guide" 5 "# Chapter 1: Intro\nbody\n" =
      .ok ("\n---\nlayout: default\ntitle: \"Intro\"\nparent: \"Guide\"\nnav_order: 1\n---\n\n# Chapter 1: Intro\nbody\n",
        true) := rfl

example : add_frontmatter "d/ch1.md" "Guide" 5 "---\nold\n" =
    .error .nameError := rfl

example : add_frontmatter "d/index.md" "Guide" 5 "---\nold\n" =
    .ok ("---\nold\n", false) := rfl

end FrontmatterTool

namespace FrontmatterTool

theorem pyIsSpace_dash : pyIsSpace '-' = false := by decide

theorem pyIsSpace_nl : pyIsSpace '\n' = true := by decide

/-- Dropping trailing whitespace keeps a leading run of three hyphens. -/
theorem dropTrailingSpace_dashes (r : List Char) :
    dropTrailingSpace ('-' :: '-' :: '-' :: r) =
      '-' :: '-' :: '-' :: dropTrailingSpace r := by
  unfold dropTrailingSpace
  rw [show ('-' :: '-' :: '-' :: r).reverse = r.reverse ++ ['-', '-', '-'] by
    simp]
  rw [List.dropWhile_append]
  by_cases h : (r.reverse.dropWhile pyIsSpace).isEmpty
  · rw [List.isEmpty_iff] at h
    simp [h, List.dropWhile, pyIsSpace_dash]
  · simp only [h, if_false, List.reverse_append]
    simp

/-- Any content whose data is a newline then three hyphens is detected by
the check of line 54. -/
theorem hasFrontmatter_shape (s : String) (r : List Char)
    (h : s.data = '\n' :: '-' :: '-' :: '-' :: r) :
    hasFrontmatter s = true := by
  unfold hasFrontmatter pyStartswith pyStrip
  show ("---".data.isPrefixOf (pyStripList s.data)) = true
  rw [h]
  unfold pyStripList
  rw [show List.dropWhile pyIsSpace ('\n' :: '-' :: '-' :: '-' :: r) =
      '-' :: '-' :: '-' :: r by simp [List.dropWhile, pyIsSpace_nl, pyIsSpace_dash]]
  rw [dropTrailingSpace_dashes]
  rw [show ("---" : String).data = ['-', '-', '-'] from rfl]
  rw [List.isPrefixOf_iff_prefix]
  exact ⟨dropTrailingSpace r, rfl⟩

/-- The index frontmatter block begins with a newline and three hyphens. -/
theorem indexFrontmatter_data (d : String) (n : Int) :
    ∃ r, (indexFrontmatter d n).data = '\n' :: '-' :: '-' :: '-' :: r :=
  ⟨_, rfl⟩

/-- The chapter frontmatter block begins with a newline and three hyphens. -/
theorem chapterFrontmatter_data (t d : String) (n : Int) :
    ∃ r, (chapterFrontmatter t d n).data = '\n' :: '-' :: '-' :: '-' :: r :=
  ⟨_, rfl⟩

/-- The written file content also begins with a newline and three
hyphens. -/
theorem written_data_shape (fm c : String) (r : List Char)
    (h : fm.data = '\n' :: '-' :: '-' :: '-' :: r) :
    (fm ++ "\n" ++ c).data = '\n' :: '-' :: '-' :: '-' :: (r ++ '\n' :: c.data) := by
  simp [String.data_append, h]

end FrontmatterTool

namespace FrontmatterTool

/-- Index role, no existing frontmatter: the write happens and the new
content is the index block, a blank line, then the old content. -/
theorem add_frontmatter_index_write (p d : String) (n : Int) (c : String)
    (hb : pyBasename p = "index.md") (hc : hasFrontmatter c = false) :
    add_frontmatter p d n c = .ok (indexFrontmatter d n ++ "\n" ++ c, true) := by
  simp [add_frontmatter, hb, hc]

/-- Chapter role with a parseable marker, no existing frontmatter: the
write happens with the chapter block built from the parsed metadata. -/
theorem add_frontmatter_chapter_write (p d : String) (n : Int) (c t : String)
    (m : Int) (hb : ¬ pyBasename p = "index.md")
    (hparse : parseChapter c = .ok (t, m)) (hc : hasFrontmatter c = false) :
    add_frontmatter p d n c = .ok (chapterFrontmatter t d m ++ "\n" ++ c, true) := by
  simp [add_frontmatter, hb, hparse, Except.map, hc]

/-- Chapter role whose marker scan raises: the exception propagates and
nothing is written. -/
theorem add_frontmatter_chapter_error (p d : String) (n : Int) (c : String)
    (e : PyError) (hb : ¬ pyBasename p = "index.md")
    (hparse : parseChapter c = .error e) :
    add_frontmatter p d n c = .error e := by
  simp [add_frontmatter, hb, hparse, Except.map]

/-- Existing frontmatter and a frontmatter block that was constructed
without raising: the call skips, leaving the content unchanged. -/
theorem add_frontmatter_skip (p d : String) (n : Int) (c : String)
    (hc : hasFrontmatter c = true)
    (h : pyBasename p = "index.md" ∨ ∃ tm, parseChapter c = .ok tm) :
    add_frontmatter p d n c = .ok (c, false) := by
  rcases h with hb | ⟨tm, hparse⟩
  · simp [add_frontmatter, hb, hc]
  · by_cases hb : pyBasename p = "index.md"
    · simp [add_frontmatter, hb, hc]
    · simp [add_frontmatter, hb, hparse, Except.map, hc]

/-- Inversion: a successful non-writing call means the content was
returned unchanged and had frontmatter already. -/
theorem add_frontmatter_ok_false_inv (p d : String) (n : Int) (c c₁ : String)
    (h : add_frontmatter p d n c = .ok (c₁, false)) :
    c₁ = c ∧ hasFrontmatter c = true := by
  unfold add_frontmatter at h
  by_cases hb : pyBasename p = "index.md"
  · simp only [hb, if_true] at h
    by_cases hc : hasFrontmatter c
    · simp [hc] at h
      exact ⟨h.symm, hc⟩
    · simp [hc] at h
  · simp only [hb, if_false] at h
    cases hp : parseChapter c with
    | error e => rw [hp] at h; simp [Except.map] at h
    | ok tm =>
      rw [hp] at h
      by_cases hc : hasFrontmatter c
      · simp [Except.map, hc] at h
        exact ⟨h.symm, hc⟩
      · simp [Except.map, hc] at h

/-- Inversion: a successful writing call means the old content had no
frontmatter and the new content is a block (starting with a newline and
three hyphens) followed by a blank line and the old content. -/
theorem add_frontmatter_ok_true_inv (p d : String) (n : Int) (c c₁ : String)
    (h : add_frontmatter p d n c = .ok (c₁, true)) :
    hasFrontmatter c = false ∧
      ∃ fm r, fm.data = '\n' :: '-' :: '-' :: '-' :: r ∧ c₁ = fm ++ "\n" ++ c := by
  unfold add_frontmatter at h
  by_cases hb : pyBasename p = "index.md"
  · simp only [hb, if_true] at h
    by_cases hc : hasFrontmatter c
    · simp [hc] at h
    · simp [hc] at h
      obtain ⟨r, hr⟩ := indexFrontmatter_data d n
      exact ⟨by simpa using hc, indexFrontmatter d n, r, hr, h.symm⟩
  · simp only [hb, if_false] at h
    cases hp : parseChapter c with
    | error e => rw [hp] at h; simp [Except.map] at h
    | ok tm =>
      rw [hp] at h
      by_cases hc : hasFrontmatter c
      · simp [Except.map, hc] at h
      · simp [Except.map, hc] at h
        obtain ⟨r, hr⟩ := chapterFrontmatter_data tm.1 d tm.2
        exact ⟨by simpa using hc, chapterFrontmatter tm.1 d tm.2, r, hr, h.symm⟩

/-- A file whose content is already detected as frontmatter is never
written: the call either skips or raises, and in both cases `runOnce`
returns the content unchanged. -/
theorem runOnce_of_hasFrontmatter (p d : String) (n : Int) (c : String)
    (hc : hasFrontmatter c = true) : runOnce p d n c = c := by
  unfold runOnce
  by_cases hb : pyBasename p = "index.md"
  · rw [add_frontmatter_skip p d n c hc (Or.inl hb)]
  · cases hp : parseChapter c with
    | error e => rw [add_frontmatter_chapter_error p d n c e hb hp]
    | ok tm => rw [add_frontmatter_skip p d n c hc (Or.inr ⟨tm, hp⟩)]

/-- On content already detected as frontmatter a successful call never
reports a write. -/
theorem no_write_of_hasFrontmatter (p d : String) (n : Int) (c : String)
    (r : String × Bool) (hc : hasFrontmatter c = true)
    (h : add_frontmatter p d n c = .ok r) : r.2 = false := by
  by_cases hb : pyBasename p = "index.md"
  · rw [add_frontmatter_skip p d n c hc (Or.inl hb)] at h
    cases h; rfl
  · cases hp : parseChapter c with
    | error e => rw [add_frontmatter_chapter_error p d n c e hb hp] at h; cases h
    | ok tm =>
      rw [add_frontmatter_skip p d n c hc (Or.inr ⟨tm, hp⟩)] at h
      cases h; rfl

/-- Core idempotence: a second invocation never changes the content left
by a first invocation. -/
theorem runOnce_idempotent (p d : String) (n : Int) (c : String) :
    runOnce p d n (runOnce p d n c) = runOnce p d n c := by
  cases h : add_frontmatter p d n c with
  | error e =>
    have h1 : runOnce p d n c = c := by unfold runOnce; rw [h]
    rw [h1]
    exact h1
  | ok r =>
    obtain ⟨c₁, w⟩ := r
    have h1 : runOnce p d n c = c₁ := by unfold runOnce; rw [h]
    rw [h1]
    cases w with
    | false =>
      obtain ⟨hc, hfm⟩ := add_frontmatter_ok_false_inv p d n c c₁ h
      rw [hc]
      exact runOnce_of_hasFrontmatter p d n c hfm
    | true =>
      obtain ⟨hc, fm, rr, hr, hc₁⟩ := add_frontmatter_ok_true_inv p d n c c₁ h
      refine runOnce_of_hasFrontmatter p d n c₁ ?_
      rw [hc₁]
      exact hasFrontmatter_shape _ _ (written_data_shape fm c rr hr)

/-- The second invocation never performs a write. -/
theorem second_run_no_write (p d : String) (n : Int) (c : String)
    (r : String × Bool)
    (h : add_frontmatter p d n (runOnce p d n c) = .ok r) : r.2 = false := by
  cases h1 : add_frontmatter p d n c with
  | error e =>
    have hr : runOnce p d n c = c := by unfold runOnce; rw [h1]
    rw [hr, h1] at h
    cases h
  | ok r₁ =>
    obtain ⟨c₁, w⟩ := r₁
    have hr : runOnce p d n c = c₁ := by unfold runOnce; rw [h1]
    rw [hr] at h
    cases w with
    | false =>
      obtain ⟨hc, hfm⟩ := add_frontmatter_ok_false_inv p d n c c₁ h1
      rw [hc] at h
      exact no_write_of_hasFrontmatter p d n c r hfm h
    | true =>
      obtain ⟨hc, fm, rr, hfmr, hc₁⟩ := add_frontmatter_ok_true_inv p d n c c₁ h1
      refine no_write_of_hasFrontmatter p d n c₁ r ?_ h
      rw [hc₁]
      exact hasFrontmatter_shape _ _ (written_data_shape fm c rr hfmr)

end FrontmatterTool

namespace FrontmatterTool

example :
    get_files "docs" (some (.node ["index.md", "logo.png"]
      [("sub", .node ["notes.txt", "ch1.md"] [])])) =
    ["docs/index.md", "docs/sub/ch1.md"] := by decide

/-- Joining a root onto a name preserves a suffix of the name. -/
theorem pyJoin_endswith (r f s : String) (h : pyEndswith f s = true) :
    pyEndswith (pyJoin r f) s = true := by
  unfold pyEndswith at h ⊢
  rw [List.isSuffixOf_iff_suffix] at h ⊢
  unfold pyJoin
  by_cases h1 : pyStartswith f "/"
  · rw [if_pos h1]
    exact h
  · rw [if_neg h1]
    by_cases h2 : r = "" ∨ pyEndswith r "/"
    · rw [if_pos h2]
      rw [show (r ++ f).data = r.data ++ f.data from String.data_append r f]
      exact h.trans (List.suffix_append _ _)
    · rw [if_neg h2]
      rw [show (r ++ "/" ++ f).data = (r ++ "/").data ++ f.data from
        String.data_append _ f]
      exact h.trans (List.suffix_append _ _)

/-- Every path produced by the Locator ends with the markdown suffix. -/
theorem get_files_endswith (root : String) (fs : Option FsDir) (q : String)
    (hq : q ∈ get_files root fs) : pyEndswith q ".md" = true := by
  cases fs with
  | none => simp [get_files] at hq
  | some d =>
    simp only [get_files, List.mem_flatMap, List.mem_map, List.mem_filter] at hq
    obtain ⟨rf, _, f, ⟨_, hf⟩, rfl⟩ := hq
    exact pyJoin_endswith rf.1 f ".md" hf

/-- A path written by the batch is one of the batch's paths. -/
theorem runWrites_subset (d : String) (n : Int) (contents : String → String)
    (paths : List String) (q : String) (hq : q ∈ runWrites d n contents paths) :
    q ∈ paths := by
  simp only [runWrites, List.mem_filterMap] at hq
  obtain ⟨a, ha, hfa⟩ := hq
  split at hfa
  · cases hfa; exact ha
  · cases hfa

end FrontmatterTool

namespace FrontmatterTool

/-- Claim C2: for every chapter file (base name not index.md) whose first
line beginning with `"# Chapter"` is `"# Chapter 3: Getting Started"`,
the Injector derives navOrder 3 and title "Getting Started", and, when no
frontmatter is present yet, writes a header whose parent is the supplied
docName. -/
theorem claim2_chapter_extraction (p d : String) (n : Int) (c : String)
    (hb : pyBasename p ≠ "index.md")
    (hm : findMarker c = some "# Chapter 3: Getting Started") :
    parseChapter c = .ok ("Getting Started", 3) ∧
      (hasFrontmatter c = false →
        add_frontmatter p d n c =
          .ok ("\n---\nlayout: default\ntitle: \"Getting Started\"\nparent: \"" ++
            d ++ "\"\nnav_order: " ++ "3" ++ "\n---\n" ++ "\n" ++ c, true)) := by
  have hp : parseChapter c = .ok ("Getting Started", 3) := by
    unfold parseChapter
    rw [hm]
    rfl
  refine ⟨hp, fun hc => ?_⟩
  rw [add_frontmatter_chapter_write p d n c "Getting Started" 3 hb hp hc]
  rfl

/-- Witness for claim C2 at a concrete chapter file. -/
theorem claim2_chapter_extraction_witness :
    parseChapter "# Chapter 3: Getting Started\nSome body\n" =
        .ok ("Getting Started", 3) ∧
      add_frontmatter "docs/ch3.md" "Guide" 9
          "# Chapter 3: Getting Started\nSome body\n" =
        .ok ("\n---\nlayout: default\ntitle: \"Getting Started\"\nparent: \"Guide\"\nnav_order: 3\n---\n\n# Chapter 3: Getting Started\nSome body\n",
          true) := by
  have h := claim2_chapter_extraction "docs/ch3.md" "Guide" 9
    "# Chapter 3: Getting Started\nSome body\n" (by decide) rfl
  exact ⟨h.1, h.2 rfl⟩

/-- Claim C3: for every file whose base name is exactly index.md and with
no existing frontmatter, the written header is exactly: title the
supplied docName verbatim, nav_order the supplied navOrder verbatim,
has_children true, and no parent field; the content only reappears as
the unchanged tail. -/
theorem claim3_index_header (p d : String) (n : Int) (c : String)
    (hb : pyBasename p = "index.md") (hc : hasFrontmatter c = false) :
    add_frontmatter p d n c =
      .ok ("\n---\nlayout: default\ntitle: \"" ++ d ++ "\"\nnav_order: " ++
        toString n ++ "\nhas_children: true\n---\n" ++ "\n" ++ c, true) := by
  rw [add_frontmatter_index_write p d n c hb hc]
  rfl

/-- Witness for claim C3 at the concrete parameters of the spec's test
(docName "Guide", navOrder 5). -/
theorem claim3_index_header_witness :
    add_frontmatter "root/index.md" "Guide" 5 "welcome\n" =
      .ok ("\n---\nlayout: default\ntitle: \"Guide\"\nnav_order: 5\nhas_children: true\n---\n\nwelcome\n",
        true) :=
  claim3_index_header "root/index.md" "Guide" 5 "welcome\n" (by decide) rfl

/-- Claim C4: whenever the Injector writes (any role), the new content is
some header followed by one blank line followed by the original content,
byte for byte. -/
theorem claim4_content_preservation (p d : String) (n : Int) (c c₁ : String)
    (h : add_frontmatter p d n c = .ok (c₁, true)) :
    ∃ fm, c₁ = fm ++ "\n" ++ c := by
  obtain ⟨-, fm, -, -, hw⟩ := add_frontmatter_ok_true_inv p d n c c₁ h
  exact ⟨fm, hw⟩

/-- Witness for claim C4 at a concrete chapter file. -/
theorem claim4_content_preservation_witness :
    ∃ fm,
      ("\n---\nlayout: default\ntitle: \"Intro\"\nparent: \"Guide\"\nnav_order: 1\n---\n\n# Chapter 1: Intro\n" : String) =
        fm ++ "\n" ++ "# Chapter 1: Intro\n" :=
  claim4_content_preservation "docs/ch1.md" "Guide" 4 "# Chapter 1: Intro\n" _ rfl

/-- Claim C5 counterexample: the written file does not begin with the
line `"---"`: the f-string opens with a newline, so one extra blank line
precedes the delimiter. -/
theorem claim5_counterexample :
    add_frontmatter "docs/index.md" "Guide" 5 "hello\n" =
        .ok ("\n---\nlayout: default\ntitle: \"Guide\"\nnav_order: 5\nhas_children: true\n---\n\nhello\n",
          true) ∧
      pyStartswith
        "\n---\nlayout: default\ntitle: \"Guide\"\nnav_order: 5\nhas_children: true\n---\n\nhello\n"
        "---" = false :=
  ⟨rfl, rfl⟩

/-- Claim C5 as amended: the written content is one extra newline, then
exactly the role-appropriate block of section 6 (delimiter line,
key-value lines, closing delimiter line), then one blank line, then the
original content. -/
theorem claim5_header_format_amended (p d : String) (n : Int) (c : String)
    (hc : hasFrontmatter c = false) :
    (pyBasename p = "index.md" →
      add_frontmatter p d n c =
        .ok ("\n---\nlayout: default\ntitle: \"" ++ d ++ "\"\nnav_order: " ++
          toString n ++ "\nhas_children: true\n---\n" ++ "\n" ++ c, true)) ∧
    (∀ t : String, ∀ m : Int, pyBasename p ≠ "index.md" →
      parseChapter c = .ok (t, m) →
      add_frontmatter p d n c =
        .ok ("\n---\nlayout: default\ntitle: \"" ++ t ++ "\"\nparent: \"" ++ d ++
          "\"\nnav_order: " ++ toString m ++ "\n---\n" ++ "\n" ++ c, true)) := by
  constructor
  · intro hb
    rw [add_frontmatter_index_write p d n c hb hc]
    rfl
  · intro t m hb hp
    rw [add_frontmatter_chapter_write p d n c t m hb hp hc]
    rfl

/-- Witness for the amended claim C5 at a concrete chapter file. -/
theorem claim5_header_format_amended_witness :
    add_frontmatter "docs/ch2.md" "Guide" 5 "# Chapter 2: Setup\n" =
      .ok ("\n---\nlayout: default\ntitle: \"Setup\"\nparent: \"Guide\"\nnav_order: 2\n---\n\n# Chapter 2: Setup\n",
        true) :=
  (claim5_header_format_amended "docs/ch2.md" "Guide" 5 "# Chapter 2: Setup\n"
    rfl).2 "Setup" 2 (by decide) rfl

/-- Claim C6 counterexample: a chapter file that already begins with the
frontmatter delimiter but has no marker line is not skipped gracefully;
the scan raises NameError before the idempotency check of line 54. -/
theorem claim6_counterexample :
    hasFrontmatter "---\nIntroduction text\n" = true ∧
      add_frontmatter "docs/ch1.md" "Guide" 1 "---\nIntroduction text\n" =
        .error .nameError :=
  ⟨rfl, rfl⟩

/-- Claim C6 as amended: a file whose stripped content begins with three
hyphens is skipped without a write, provided it is an index file or its
marker line parses; a chapter file whose marker scan raises is left
unchanged but aborts instead of reporting a skip. -/
theorem claim6_skip_amended (p d : String) (n : Int) (c : String)
    (hc : hasFrontmatter c = true)
    (h : pyBasename p = "index.md" ∨ ∃ tm, parseChapter c = .ok tm) :
    add_frontmatter p d n c = .ok (c, false) :=
  add_frontmatter_skip p d n c hc h

/-- Witness for the amended claim C6 at a concrete index file. -/
theorem claim6_skip_amended_witness :
    add_frontmatter "x/index.md" "Guide" 2 "---\nold header\n---\nbody\n" =
      .ok ("---\nold header\n---\nbody\n", false) :=
  claim6_skip_amended "x/index.md" "Guide" 2 "---\nold header\n---\nbody\n" rfl
    (Or.inl (by decide))

/-- Claim C7 counterexample: with a missing (or unreadable) root the run
does not abort: `os.walk` swallows the scandir error by default, so the
run completes successfully having processed no files. -/
theorem claim7_counterexample :
    mainRun "Doc" 1 "/missing" none (fun _ => "") = .ok [] :=
  rfl

/-- Claim C7 as amended: for every invocation whose root path is missing
or unreadable, the traversal error is swallowed, the Locator yields no
files, and the run completes successfully with an empty result. -/
theorem claim7_missing_root_amended (d : String) (n : Int) (root : String)
    (contents : String → String) :
    mainRun d n root none contents = .ok [] :=
  rfl

/-- Claim C8: a file whose name does not end with ".md" is never in the
Locator's output and is never written by the run. -/
theorem claim8_non_md_excluded (root : String) (fs : Option FsDir)
    (q d : String) (n : Int) (contents : String → String)
    (hq : pyEndswith q ".md" = false) :
    q ∉ get_files root fs ∧
      q ∉ runWrites d n contents (get_files root fs) := by
  constructor
  · intro hmem
    rw [get_files_endswith root fs q hmem] at hq
    cases hq
  · intro hmem
    rw [get_files_endswith root fs q
      (runWrites_subset d n contents (get_files root fs) q hmem)] at hq
    cases hq

/-- Witness for claim C8 at a concrete tree containing a non-markdown
file in a subdirectory. -/
theorem claim8_non_md_excluded_witness :
    pyEndswith "docs/sub/notes.txt" ".md" = false ∧
      ("docs/sub/notes.txt" ∉
          get_files "docs" (some (.node ["index.md", "logo.png"]
            [("sub", .node ["notes.txt", "ch1.md"] [])])) ∧
        "docs/sub/notes.txt" ∉
          runWrites "Guide" 1 (fun _ => "")
            (get_files "docs" (some (.node ["index.md", "logo.png"]
              [("sub", .node ["notes.txt", "ch1.md"] [])]))) ) :=
  ⟨by decide,
    claim8_non_md_excluded "docs" (some (.node ["index.md", "logo.png"]
      [("sub", .node ["notes.txt", "ch1.md"] [])])) "docs/sub/notes.txt"
      "Guide" 1 (fun _ => "") (by decide)⟩

/-- Claim C9: a chapter file with no marker line, or whose first marker
line lacks a colon, or whose chapter-number token is not a valid
integer, makes add_frontmatter raise before the write step, leaving the
content unchanged. -/
theorem claim9_marker_failure (p d : String) (n : Int) (c : String)
    (hb : pyBasename p ≠ "index.md")
    (h : findMarker c = none ∨
      (∃ l ps, findMarker c = some l ∧ pySplitChar l ':' = [ps]) ∨
      (∃ l p0 p1 rest, findMarker c = some l ∧
        pySplitChar l ':' = p0 :: p1 :: rest ∧
        pyInt ((pySplitChar p0 ' ').getLastD "") = none)) :
    ∃ e, add_frontmatter p d n c = .error e ∧ runOnce p d n c = c := by
  have hp : ∃ e, parseChapter c = .error e := by
    rcases h with h | ⟨l, ps, hm, hs⟩ | ⟨l, p0, p1, rest, hm, hs, hi⟩
    · exact ⟨.nameError, by unfold parseChapter; rw [h]⟩
    · refine ⟨.indexError, ?_⟩
      unfold parseChapter
      rw [hm]
      show parseMarkerLine l = .error .indexError
      unfold parseMarkerLine
      rw [hs]
    · refine ⟨.valueError, ?_⟩
      unfold parseChapter
      rw [hm]
      show parseMarkerLine l = .error .valueError
      unfold parseMarkerLine
      rw [hs]
      rw [List.getLastD_eq_getLast?] at hi
      simp [hi]
  obtain ⟨e, he⟩ := hp
  refine ⟨e, add_frontmatter_chapter_error p d n c e hb he, ?_⟩
  unfold runOnce
  rw [add_frontmatter_chapter_error p d n c e hb he]

/-- Witness for claim C9 at a concrete chapter file without a marker
line. -/
theorem claim9_marker_failure_witness :
    ∃ e, add_frontmatter "docs/ch9.md" "Guide" 1 "plain text only\n" =
        .error e ∧
      runOnce "docs/ch9.md" "Guide" 1 "plain text only\n" = "plain text only\n" :=
  claim9_marker_failure "docs/ch9.md" "Guide" 1 "plain text only\n" (by decide)
    (Or.inl rfl)

/-- Claim C10: when the first marker line contains more than one colon,
the derived title is only the trimmed segment between the first and the
second colon, independent of the rest of the line. -/
theorem claim10_multi_colon_title (c l p0 p1 p2 : String) (rest : List String)
    (m : Int) (hm : findMarker c = some l)
    (hs : pySplitChar l ':' = p0 :: p1 :: p2 :: rest)
    (hi : pyInt ((pySplitChar p0 ' ').getLastD "") = some m) :
    parseChapter c = .ok (pyStrip p1, m) := by
  unfold parseChapter
  rw [hm]
  show parseMarkerLine l = .ok (pyStrip p1, m)
  unfold parseMarkerLine
  rw [hs]
  rw [List.getLastD_eq_getLast?] at hi
  simp [hi]

/-- Witness for claim C10 at the marker line "# Chapter 2: Setup: Part
A": the title is "Setup", not "Setup: Part A". -/
theorem claim10_multi_colon_title_witness :
    parseChapter "# Chapter 2: Setup: Part A\n" = .ok ("Setup", 2) :=
  claim10_multi_colon_title "# Chapter 2: Setup: Part A\n"
    "# Chapter 2: Setup: Part A" "# Chapter 2" " Setup" " Part A" [] 2
    rfl rfl rfl

end FrontmatterTool

namespace FrontmatterTool

/-- Unfolding: a newline starts a new line; at the end of input no empty
line is opened. -/
theorem go_nl (rest acc : List Char) :
    pySplitlinesGo ('\n' :: rest) acc = acc.reverse :: pySplitlinesCont rest := rfl

/-- Unfolding: a non-boundary character is accumulated into the current
line. -/
theorem go_cons_nb (x : Char) (rest acc : List Char)
    (hx : isLineBoundary x = false) :
    pySplitlinesGo (x :: rest) acc = pySplitlinesGo rest (x :: acc) := by
  have hxr : x ≠ '\r' := by
    intro h
    subst h
    simp [isLineBoundary] at hx
  rw [pySplitlinesGo.eq_def]
  split
  · simp_all
  · simp_all
  · rename_i heq
    injection heq with h1 h2
    subst h1
    subst h2
    rw [hx]
    simp

/-- Unfolding: a boundary character other than a carriage return before a
newline ends the current line. -/
theorem go_cons_b (x : Char) (rest acc : List Char)
    (hx : isLineBoundary x = true)
    (hxr : ∀ r, x = '\r' → rest = '\n' :: r → False) :
    pySplitlinesGo (x :: rest) acc = acc.reverse :: pySplitlinesCont rest := by
  rw [pySplitlinesGo.eq_def]
  split
  · simp_all
  · rename_i heq
    injection heq with h1 h2
    exact (hxr _ h1 h2).elim
  · rename_i heq
    injection heq with h1 h2
    subst h1
    subst h2
    rw [hx]
    simp [pySplitlinesCont]

/-- A run of non-boundary characters is absorbed into the accumulator. -/
theorem go_seg (seg rest acc : List Char)
    (hseg : ∀ ch ∈ seg, isLineBoundary ch = false) :
    pySplitlinesGo (seg ++ rest) acc =
      pySplitlinesGo rest (seg.reverse ++ acc) := by
  induction seg generalizing acc with
  | nil => simp
  | cons x s ih =>
    rw [List.cons_append, go_cons_nb x (s ++ rest) acc (hseg x (by simp)),
      ih (x :: acc) (fun ch hch => hseg ch (by simp [hch]))]
    simp

/-- A newline before a nonempty remainder closes the current line and
restarts with an empty accumulator. -/
theorem go_nl_ne (rest acc : List Char) (hne : rest ≠ []) :
    pySplitlinesGo ('\n' :: rest) acc = acc.reverse :: pySplitlinesGo rest [] := by
  cases rest with
  | nil => exact absurd rfl hne
  | cons y r => rfl

/-- One full line: a non-boundary segment, a newline, a nonempty
remainder. -/
theorem go_line (seg rest acc : List Char)
    (hseg : ∀ ch ∈ seg, isLineBoundary ch = false) (hne : rest ≠ []) :
    pySplitlinesGo (seg ++ '\n' :: rest) acc =
      (acc.reverse ++ seg) :: pySplitlinesGo rest [] := by
  rw [go_seg seg _ acc hseg, go_nl_ne rest _ hne]
  simp

/-- Helper: an append whose left part is nonempty is nonempty. -/
theorem ne_nil_append (a b : List Char) (ha : a ≠ []) : a ++ b ≠ [] :=
  fun h => ha (List.append_eq_nil.mp h).1

end FrontmatterTool

namespace FrontmatterTool

/-- Every character of every line produced by the splitter is a
non-boundary character (given a non-boundary accumulator). -/
theorem mem_go (l acc : List Char) (hacc : ∀ c ∈ acc, isLineBoundary c = false)
    (piece : List Char) (hp : piece ∈ pySplitlinesGo l acc)
    (ch : Char) (hch : ch ∈ piece) : isLineBoundary ch = false := by
  induction l, acc using pySplitlinesGo.induct with
  | case1 acc =>
    simp [pySplitlinesGo] at hp
    subst hp
    exact hacc ch (by simpa using hch)
  | case2 rest acc ih =>
    rw [show pySplitlinesGo ('\r' :: '\n' :: rest) acc =
      acc.reverse :: pySplitlinesCont rest from rfl] at hp
    rcases List.mem_cons.mp hp with hp1 | hp2
    · subst hp1
      exact hacc ch (by simpa using hch)
    · cases rest with
      | nil => simp [pySplitlinesCont] at hp2
      | cons y r =>
        exact ih (by simp) (by simpa [pySplitlinesCont] using hp2)
  | case3 c rest acc hnr hb ih =>
    rw [go_cons_b c rest acc hb hnr] at hp
    rcases List.mem_cons.mp hp with hp1 | hp2
    · subst hp1
      exact hacc ch (by simpa using hch)
    · cases rest with
      | nil => simp [pySplitlinesCont] at hp2
      | cons y r =>
        exact ih (by simp) (by simpa [pySplitlinesCont] using hp2)
  | case4 c rest acc hnr hb ih =>
    rw [go_cons_nb c rest acc (by simpa using hb)] at hp
    refine ih ?_ hp
    intro c' hc'
    rcases List.mem_cons.mp hc' with h | h
    · subst h
      simpa using hb
    · exact hacc c' h

/-- Every character of every line of `pySplitlines` is a non-boundary
character. -/
theorem mem_splitlines (s line : String) (hl : line ∈ pySplitlines s) :
    ∀ ch ∈ line.data, isLineBoundary ch = false := by
  intro ch hch
  unfold pySplitlines at hl
  revert hl
  cases s.data with
  | nil => intro hl; simp at hl
  | cons x l =>
    intro hl
    simp only [List.mem_map] at hl
    obtain ⟨piece, hpiece, rfl⟩ := hl
    exact mem_go _ [] (by simp) piece hpiece ch hch

/-- Characters of the pieces of the separator split come from the input
or the accumulator. -/
theorem mem_splitCharGo (sep : Char) (l acc piece : List Char)
    (hp : piece ∈ pySplitCharGo sep l acc) (ch : Char) (hch : ch ∈ piece) :
    ch ∈ l ∨ ch ∈ acc := by
  induction l generalizing acc with
  | nil =>
    simp [pySplitCharGo] at hp
    subst hp
    exact Or.inr (by simpa using hch)
  | cons x rest ih =>
    unfold pySplitCharGo at hp
    by_cases hx : x = sep
    · rw [if_pos hx] at hp
      rcases List.mem_cons.mp hp with hp1 | hp2
      · subst hp1
        exact Or.inr (by simpa using hch)
      · rcases ih [] hp2 with h | h
        · exact Or.inl (List.mem_cons_of_mem _ h)
        · simp at h
    · rw [if_neg hx] at hp
      rcases ih (x :: acc) hp with h | h
      · exact Or.inl (List.mem_cons_of_mem _ h)
      · rcases List.mem_cons.mp h with h1 | h2
        · subst h1
          exact Or.inl (List.mem_cons_self _ _)
        · exact Or.inr h2

/-- Stripping only removes characters. -/
theorem mem_pyStripList (l : List Char) (ch : Char)
    (h : ch ∈ pyStripList l) : ch ∈ l := by
  unfold pyStripList dropTrailingSpace at h
  have h1 := (List.dropWhile_sublist (l := (l.dropWhile pyIsSpace).reverse)
    (p := pyIsSpace)).subset (by simpa using h)
  have h2 := (List.dropWhile_sublist (l := l) (p := pyIsSpace)).subset
    (by simpa using h1)
  exact h2

end FrontmatterTool

namespace FrontmatterTool

/-- Decimal rendering produces only digit characters. -/
theorem toDigitsCore_digits (fuel : Nat) : ∀ (n : Nat) (ds : List Char),
    (∀ c ∈ ds, c.isDigit = true) →
    ∀ c ∈ Nat.toDigitsCore 10 fuel n ds, c.isDigit = true := by
  induction fuel with
  | zero =>
    intro n ds hds c hc
    exact hds c (by simpa [Nat.toDigitsCore] using hc)
  | succ fuel ih =>
    intro n ds hds c hc
    have hdigit : (Nat.digitChar (n % 10)).isDigit = true := by
      have hball : ∀ k, k < 10 → (Nat.digitChar k).isDigit = true := by decide
      exact hball _ (Nat.mod_lt _ (by omega))
    have hcons : ∀ c' ∈ Nat.digitChar (n % 10) :: ds, c'.isDigit = true := by
      intro c' hc'
      rcases List.mem_cons.mp hc' with h | h
      · subst h; exact hdigit
      · exact hds c' h
    rw [show Nat.toDigitsCore 10 (fuel + 1) n ds =
        (if n / 10 = 0 then Nat.digitChar (n % 10) :: ds
         else Nat.toDigitsCore 10 fuel (n / 10) (Nat.digitChar (n % 10) :: ds))
      from rfl] at hc
    by_cases h0 : n / 10 = 0
    · rw [if_pos h0] at hc
      exact hcons c hc
    · rw [if_neg h0] at hc
      exact ih (n / 10) _ hcons c hc

/-- The characters of `Nat.repr` are digits. -/
theorem natRepr_digits (n : Nat) : ∀ c ∈ (Nat.repr n).data, c.isDigit = true := by
  intro c hc
  exact toDigitsCore_digits (n + 1) n [] (by simp) c hc

/-- A digit character is not a line boundary. -/
theorem isDigit_not_boundary (c : Char) (h : c.isDigit = true) :
    isLineBoundary c = false := by
  cases hB : isLineBoundary c with
  | false => rfl
  | true =>
    exfalso
    simp only [isLineBoundary, Bool.or_eq_true, decide_eq_true_eq] at hB
    rcases hB with rfl | rfl | rfl | rfl | rfl | rfl | rfl | rfl | rfl | rfl <;>
      exact absurd h (by decide)

/-- The decimal rendering of an integer contains no line boundary
characters. -/
theorem toString_int_noBoundary (m : Int) :
    ∀ ch ∈ (toString m).data, isLineBoundary ch = false := by
  intro ch hch
  cases m with
  | ofNat k =>
    have : (toString (Int.ofNat k)).data = (Nat.repr k).data := rfl
    rw [this] at hch
    exact isDigit_not_boundary ch (natRepr_digits k ch hch)
  | negSucc k =>
    have : (toString (Int.negSucc k)).data = '-' :: (Nat.repr (k + 1)).data := rfl
    rw [this] at hch
    rcases List.mem_cons.mp hch with h | h
    · subst h; decide
    · exact isDigit_not_boundary ch (natRepr_digits (k + 1) ch h)

/-- The title extracted by a successful chapter parse contains no line
boundary characters: it is a stripped piece of a colon split of one of
the content's lines. -/
theorem parse_title_noBoundary (c t : String) (m : Int)
    (h : parseChapter c = .ok (t, m)) :
    ∀ ch ∈ t.data, isLineBoundary ch = false := by
  unfold parseChapter at h
  cases hm : findMarker c with
  | none => rw [hm] at h; cases h
  | some line =>
    simp only [hm] at h
    have hline : line ∈ pySplitlines c :=
      List.mem_of_find?_eq_some hm
    have hlb := mem_splitlines c line hline
    unfold parseMarkerLine at h
    cases hs : pySplitChar line ':' with
    | nil => simp only [hs] at h; cases h
    | cons p0 ps =>
      cases ps with
      | nil => simp only [hs] at h; cases h
      | cons p1 rest =>
        simp only [hs] at h
        cases hi : pyInt ((pySplitChar p0 ' ').getLastD "") with
        | none => simp only [hi] at h; cases h
        | some k =>
          simp only [hi] at h
          injection h with h'
          injection h' with ht hk
          have hp1 : p1 ∈ pySplitChar line ':' := by rw [hs]; simp
          intro ch hch
          have hch1 : ch ∈ p1.data := by
            rw [← ht] at hch
            exact mem_pyStripList p1.data ch hch
          obtain ⟨piece, hpiece, hmk⟩ := List.mem_map.mp (by
            simpa [pySplitChar] using hp1)
          have hor : ch ∈ line.data ∨ ch ∈ ([] : List Char) := by
            refine mem_splitCharGo ':' line.data [] piece hpiece ch ?_
            rw [← hmk] at hch1
            exact hch1
          rcases hor with h' | h'
          · exact hlb ch h'
          · simp at h'

end FrontmatterTool

namespace FrontmatterTool

/-- Appending preserves freedom from line boundaries. -/
theorem noBoundary_append (a b : List Char)
    (ha : ∀ ch ∈ a, isLineBoundary ch = false)
    (hb : ∀ ch ∈ b, isLineBoundary ch = false) :
    ∀ ch ∈ a ++ b, isLineBoundary ch = false := by
  intro ch hch
  rcases List.mem_append.mp hch with h | h
  · exact ha ch h
  · exact hb ch h

/-- A string whose first character is not a hash does not start with the
chapter marker. -/
theorem startswith_chapter_head (s : String) (x : Char) (l : List Char)
    (h : s.data = x :: l) (hx : x ≠ '#') :
    pyStartswith s "# Chapter" = false := by
  unfold pyStartswith
  rw [h, show ("# Chapter" : String).data = '#' :: " Chapter".data from rfl]
  simp [List.isPrefixOf, Ne.symm hx]

/-- Splitting the lines of a string with nonempty data. -/
theorem pySplitlines_of_data_cons (s : String) (x : Char) (l : List Char)
    (h : s.data = x :: l) :
    pySplitlines s = (pySplitlinesGo (x :: l) []).map (fun cs => ⟨cs⟩) := by
  unfold pySplitlines
  rw [h]

/-- The continuation after the final header newline is exactly the lines
of the original content. -/
theorem map_mk_cont (c : String) :
    (pySplitlinesCont c.data).map (fun cs => (⟨cs⟩ : String)) = pySplitlines c := by
  unfold pySplitlinesCont pySplitlines
  cases c.data with
  | nil => rfl
  | cons x l => rfl

/-- Line decomposition of a freshly written chapter file: one leading
empty line, the five block lines, the closing delimiter, one empty
separator line, then the lines of the original content. -/
theorem chapter_lines (t d : String) (m : Int) (c : String)
    (ht : ∀ ch ∈ t.data, isLineBoundary ch = false)
    (hd : ∀ ch ∈ d.data, isLineBoundary ch = false) :
    pySplitlines (chapterFrontmatter t d m ++ "\n" ++ c) =
      "" :: "---" :: "layout: default" :: ("title: \"" ++ t ++ "\"") ::
        ("parent: \"" ++ d ++ "\"") :: ("nav_order: " ++ toString m) :: "---" ::
        "" :: pySplitlines c := by
  have hM := toString_int_noBoundary m
  have hdata : (chapterFrontmatter t d m ++ "\n" ++ c).data =
      '\n' :: ("---".data ++ '\n' :: ("layout: default".data ++ '\n' ::
        (("title: \"".data ++ t.data ++ "\"".data) ++ '\n' ::
          (("parent: \"".data ++ d.data ++ "\"".data) ++ '\n' ::
            (("nav_order: ".data ++ (toString m).data) ++ '\n' ::
              ("---".data ++ '\n' :: '\n' :: c.data)))))) := by
    have eA : ("\n---\nlayout: default\ntitle: \"" : String).data =
        '\n' :: ("---".data ++ '\n' :: ("layout: default".data ++ '\n' ::
          "title: \"".data)) := rfl
    have eB : ("\"\nparent: \"" : String).data =
        "\"".data ++ '\n' :: "parent: \"".data := rfl
    have eC : ("\"\nnav_order: " : String).data =
        "\"".data ++ '\n' :: "nav_order: ".data := rfl
    have eD : ("\n---\n" : String).data = '\n' :: ("---".data ++ ['\n']) := rfl
    have eNl : ("\n" : String).data = ['\n'] := rfl
    simp only [chapterFrontmatter, String.data_append, eA, eB, eC, eD, eNl,
      List.append_assoc, List.cons_append, List.nil_append]
  rw [pySplitlines_of_data_cons _ _ _ hdata]
  rw [show pySplitlinesGo ('\n' :: ("---".data ++ '\n' ::
      ("layout: default".data ++ '\n' ::
        (("title: \"".data ++ t.data ++ "\"".data) ++ '\n' ::
          (("parent: \"".data ++ d.data ++ "\"".data) ++ '\n' ::
            (("nav_order: ".data ++ (toString m).data) ++ '\n' ::
              ("---".data ++ '\n' :: '\n' :: c.data))))))) [] =
    [].reverse :: pySplitlinesGo ("---".data ++ '\n' ::
      ("layout: default".data ++ '\n' ::
        (("title: \"".data ++ t.data ++ "\"".data) ++ '\n' ::
          (("parent: \"".data ++ d.data ++ "\"".data) ++ '\n' ::
            (("nav_order: ".data ++ (toString m).data) ++ '\n' ::
              ("---".data ++ '\n' :: '\n' :: c.data)))))) []
    from go_nl_ne _ _ (ne_nil_append _ _ (by decide))]
  rw [go_line "---".data _ [] (by decide) (ne_nil_append _ _ (by decide))]
  rw [go_line "layout: default".data _ [] (by decide)
    (ne_nil_append _ _ (ne_nil_append _ _ (ne_nil_append _ _ (by decide))))]
  rw [go_line ("title: \"".data ++ t.data ++ "\"".data) _ []
    (noBoundary_append _ _ (noBoundary_append _ _ (by decide) ht) (by decide))
    (ne_nil_append _ _ (ne_nil_append _ _ (ne_nil_append _ _ (by decide))))]
  rw [go_line ("parent: \"".data ++ d.data ++ "\"".data) _ []
    (noBoundary_append _ _ (noBoundary_append _ _ (by decide) hd) (by decide))
    (ne_nil_append _ _ (ne_nil_append _ _ (by decide)))]
  rw [go_line ("nav_order: ".data ++ (toString m).data) _ []
    (noBoundary_append _ _ (by decide) hM)
    (ne_nil_append _ _ (by decide))]
  rw [go_line "---".data _ [] (by decide) (by simp)]
  rw [go_nl]
  rw [show ∀ ll : List (List Char), (([].reverse : List Char) :: ll) = [] :: ll
    from fun ll => rfl]
  simp only [List.map_cons, List.nil_append, List.reverse_nil, map_mk_cont]
  rfl

end FrontmatterTool

namespace FrontmatterTool

/-- None of the header lines of a written chapter block starts with the
chapter marker, so the marker scan of a freshly written chapter file
finds the same marker line as before the write (the doc-name must be
free of line boundaries, otherwise it could forge new lines). -/
theorem parseChapter_written (t d : String) (m : Int) (c : String)
    (hd : ∀ ch ∈ d.data, isLineBoundary ch = false)
    (hparse : parseChapter c = .ok (t, m)) :
    parseChapter (chapterFrontmatter t d m ++ "\n" ++ c) = .ok (t, m) := by
  have ht := parse_title_noBoundary c t m hparse
  have hlines := chapter_lines t d m c ht hd
  unfold parseChapter at hparse
  cases hm : findMarker c with
  | none => rw [hm] at hparse; cases hparse
  | some line =>
    simp only [hm] at hparse
    have hfm : findMarker (chapterFrontmatter t d m ++ "\n" ++ c) = some line := by
      unfold findMarker
      rw [hlines]
      rw [List.find?_cons_of_neg _ (by decide)]
      rw [List.find?_cons_of_neg _ (by decide)]
      rw [List.find?_cons_of_neg _ (by decide)]
      rw [List.find?_cons_of_neg _ (by
        rw [startswith_chapter_head ("title: \"" ++ t ++ "\"") 't'
          ((("itle: \"").data ++ t.data) ++ "\"".data) rfl (by decide)]
        decide)]
      rw [List.find?_cons_of_neg _ (by
        rw [startswith_chapter_head ("parent: \"" ++ d ++ "\"") 'p'
          ((("arent: \"").data ++ d.data) ++ "\"".data) rfl (by decide)]
        decide)]
      rw [List.find?_cons_of_neg _ (by
        rw [startswith_chapter_head ("nav_order: " ++ toString m) 'n'
          (("av_order: ").data ++ (toString m).data) rfl (by decide)]
        decide)]
      rw [List.find?_cons_of_neg _ (by decide)]
      rw [List.find?_cons_of_neg _ (by decide)]
      exact hm
    unfold parseChapter
    rw [hfm]
    exact hparse

/-- Second invocation on the content written by a first invocation: when
the doc-name contains no line boundary characters, the frontmatter check
of line 54 fires and the call returns without writing. -/
theorem second_run_detect (p d : String) (n : Int) (c c₁ : String)
    (hd : ∀ ch ∈ d.data, isLineBoundary ch = false)
    (h : add_frontmatter p d n c = .ok (c₁, true)) :
    add_frontmatter p d n c₁ = .ok (c₁, false) := by
  have hhc : hasFrontmatter c = false := (add_frontmatter_ok_true_inv p d n c c₁ h).1
  by_cases hb : pyBasename p = "index.md"
  · rw [add_frontmatter_index_write p d n c hb hhc] at h
    injection h with h'
    injection h' with h1 h2
    subst h1
    have hfm : hasFrontmatter (indexFrontmatter d n ++ "\n" ++ c) = true := by
      obtain ⟨r, hr⟩ := indexFrontmatter_data d n
      exact hasFrontmatter_shape _ _ (written_data_shape _ c r hr)
    exact add_frontmatter_skip p d n _ hfm (Or.inl hb)
  · cases hp : parseChapter c with
    | error e => rw [add_frontmatter_chapter_error p d n c e hb hp] at h; cases h
    | ok tm =>
      obtain ⟨t, m⟩ := tm
      rw [add_frontmatter_chapter_write p d n c t m hb hp hhc] at h
      injection h with h'
      injection h' with h1 h2
      subst h1
      have hfm : hasFrontmatter (chapterFrontmatter t d m ++ "\n" ++ c) = true := by
        obtain ⟨r, hr⟩ := chapterFrontmatter_data t d m
        exact hasFrontmatter_shape _ _ (written_data_shape _ c r hr)
      exact add_frontmatter_skip p d n _ hfm
        (Or.inr ⟨(t, m), parseChapter_written t d m c hd hp⟩)

end FrontmatterTool

namespace FrontmatterTool

/-- Claim C1 counterexample: a doc-name containing a newline forges a
bogus marker line inside the written header, so on a file that satisfies
the claim's premise the first run writes but the second run raises
IndexError instead of detecting the frontmatter and skipping.  (The file
content is still unchanged by the second run, but the claimed no-op
mechanism fails.) -/
theorem claim1_counterexample :
    (∃ l ∈ pySplitlines "# Chapter 2: Intro\n", pyStartswith l "# Chapter" = true) ∧
      add_frontmatter "ch1.md" "A\n# ChapterX" 1 "# Chapter 2: Intro\n" =
        .ok ("\n---\nlayout: default\ntitle: \"Intro\"\nparent: \"A\n# ChapterX\"\nnav_order: 2\n---\n\n# Chapter 2: Intro\n",
          true) ∧
      add_frontmatter "ch1.md" "A\n# ChapterX" 1
          "\n---\nlayout: default\ntitle: \"Intro\"\nparent: \"A\n# ChapterX\"\nnav_order: 2\n---\n\n# Chapter 2: Intro\n" =
        .error .indexError :=
  ⟨⟨"# Chapter 2: Intro", by decide, by decide⟩, rfl, rfl⟩

/-- Claim C1 as amended: on every file whose content contains a marker
line, the content after running the Injector twice equals the content
after running it once, byte for byte, and the second run never performs
a write; moreover, when the doc-name contains no line-boundary
characters and the first run performed a write, the second run detects
the frontmatter and returns without writing. -/
theorem claim1_idempotence_amended (p d : String) (n : Int) (c : String)
    (_hmark : ∃ l ∈ pySplitlines c, pyStartswith l "# Chapter" = true) :
    runOnce p d n (runOnce p d n c) = runOnce p d n c ∧
      (∀ r, add_frontmatter p d n (runOnce p d n c) = .ok r → r.2 = false) ∧
      ((∀ ch ∈ d.data, isLineBoundary ch = false) →
        ∀ c₁, add_frontmatter p d n c = .ok (c₁, true) →
          add_frontmatter p d n c₁ = .ok (c₁, false)) :=
  ⟨runOnce_idempotent p d n c,
    fun r h => second_run_no_write p d n c r h,
    fun hd c₁ h => second_run_detect p d n c c₁ hd h⟩

/-- Witness for the amended claim C1 at a concrete chapter file. -/
theorem claim1_idempotence_amended_witness :
    runOnce "d/ch1.md" "Guide" 7 (runOnce "d/ch1.md" "Guide" 7
        "# Chapter 1: Intro\n") =
      runOnce "d/ch1.md" "Guide" 7 "# Chapter 1: Intro\n" ∧
    add_frontmatter "d/ch1.md" "Guide" 7
        "\n---\nlayout: default\ntitle: \"Intro\"\nparent: \"Guide\"\nnav_order: 1\n---\n\n# Chapter 1: Intro\n" =
      .ok ("\n---\nlayout: default\ntitle: \"Intro\"\nparent: \"Guide\"\nnav_order: 1\n---\n\n# Chapter 1: Intro\n",
        false) :=
  have h := claim1_idempotence_amended "d/ch1.md" "Guide" 7
    "# Chapter 1: Intro\n" ⟨"# Chapter 1: Intro", by decide, by decide⟩
  ⟨h.1, h.2.2 (by decide) _ rfl⟩

end FrontmatterTool
